import Mathlib

/-!
Shallow embedding of the GPTQ quantization utilities of this repository
(`keras/src/quantizers/gptqutils.py` and `keras/src/utils/variable_loading.py`),
together with theorems settling the frozen claims about them.

Conventions of the embedding:
* integer token ids are `Int`; tensors are nested lists;
* external collaborators (HuggingFace `load_dataset`, the tokenizer, the Keras
  tensor ops, the block forward computation, and `fasterquant` from `gptq.py`,
  which is not among the sources) enter as explicit function parameters or as
  already-materialised data;
* Python's ambient global `random` state (used, unseeded, by the `"c4"` branch
  of `get_dataloader`) is threaded explicitly as a list `rng : List Nat` of
  draws; it is *not* an argument of the Python function;
* exceptions are `Except String` results; in-place mutation of the model is
  explicit state passing.
-/

namespace KerasGptq

/-! ## Calibration data pipeline (`get_dataloader`, gptqutils.py lines 79-179) -/

/-- The four kinds of dataset source accepted by `get_dataloader`, with the
external loading/tokenization already applied:
* `c4`: the `"c4"` string alias; `docs` are the tokenized documents obtained
  from the streamed `allenai/c4` head (`tokenizer(doc['text'])` applied, the
  external part of lines 97-101 and 109);
* `named`: any other string alias (`"wikitext2"`, `"ptb"`, or a passthrough
  name); `toks` is the token stream `tokenizer.tokenize(full_text)` of the
  externally loaded corpus (lines 130-139);
* `strings`: an iterable of raw text strings (lines 148-151);
* `pretokenized`: an iterable of pre-tokenized arrays (lines 152-157). -/
inductive DatasetSource where
  | c4 (docs : List (List Int))
  | named (toks : List Int)
  | strings (texts : List String)
  | pretokenized (items : List (List Int))
deriving DecidableEq

/-- `"\n\n".join(text_list)` (lines 138, 150). -/
def joinTexts (texts : List String) : String :=
  String.intercalate "\n\n" texts

/-- `np.tile(all_tokens, repeats)`: `k` copies of `t` concatenated. -/
def repeatToks : Nat → List Int → List Int
  | 0, _ => []
  | k + 1, t => t ++ repeatToks k t

/-- Step 2 of `get_dataloader` (lines 161-166): if the stream is shorter than
`required` tokens it is tiled `-(-required // len)` (ceiling division) times.
Only called with a non-empty stream (the caller surfaces Python's
`ZeroDivisionError` otherwise). -/
def tiledStream (toks : List Int) (required : Nat) : List Int :=
  if toks.length < required then
    repeatToks ((required + toks.length - 1) / toks.length) toks
  else toks

/-- Step 3 of `get_dataloader` (lines 171-176): sample `i` is
`all_tokens[i*seqlen : (i+1)*seqlen]`.  The `(1, seqlen)` reshape and the
final `stack`/`convert_to_numpy` only add a unit axis, which the embedding
drops. -/
def chunkSamples (allToks : List Int) (nsamples seqlen : Nat) : List (List Int) :=
  (List.range nsamples).map (fun i => (allToks.drop (i * seqlen)).take seqlen)

/-- Steps 2-3 of `get_dataloader` on a unified token stream.  With an empty
stream and a positive requirement, the ceiling division `-(-required // 0)`
raises `ZeroDivisionError` in Python. -/
def streamSamples (toks : List Int) (nsamples seqlen : Nat) :
    Except String (List (List Int)) :=
  if toks.length = 0 ∧ 0 < nsamples * seqlen then
    Except.error "ZeroDivisionError: integer division or modulo by zero"
  else
    Except.ok (chunkSamples (tiledStream toks (nsamples * seqlen)) nsamples seqlen)

/-- The `while True` document search of the `"c4"` branch (lines 104-116):
repeatedly `random.choice(docs_for_sampling)` until the tokenized document has
at least `seqlen` tokens.  One ambient draw is consumed per attempt; `none`
stands for the failure modes that cannot return a document (empty document
list, i.e. `random.choice` raising, or the modelled randomness running out,
i.e. the loop spinning on an external source). -/
def c4PickDoc (docs : List (List Int)) (seqlen : Nat) :
    List Nat → Option (List Int × List Nat)
  | [] => none
  | r :: rs =>
    match docs[r % docs.length]? with
    | none => none
    | some d => if seqlen ≤ d.length then some (d, rs) else c4PickDoc docs seqlen rs

/-- The `"c4"` sampling loop (lines 103-121): for each of `nsamples` samples,
pick a long-enough document, then slice `seqlen` tokens starting at
`j = random.randint(0, len(doc) - seqlen - 1)` (so `j` ranges over
`[0, len - seqlen)`, which requires `len - seqlen ≥ 1`; with `len = seqlen`
Python's `randint(0, -1)` raises `ValueError`, modelled as `none`). -/
def c4Samples (docs : List (List Int)) (seqlen : Nat) :
    Nat → List Nat → Option (List (List Int))
  | 0, _ => some []
  | n + 1, rng =>
    match c4PickDoc docs seqlen rng with
    | none => none
    | some (d, rs) =>
      match rs with
      | [] => none
      | j :: rs' =>
        if 1 ≤ d.length - seqlen then
          match c4Samples docs seqlen n rs' with
          | none => none
          | some rest => some (((d.drop (j % (d.length - seqlen))).take seqlen) :: rest)
        else none

/-- `get_dataloader(tokenizer, seqlen, dataset, nsamples, seed)`
(gptqutils.py lines 79-179).  `tokenize` embeds `tokenizer.tokenize`; `rng` is
Python's ambient global `random` state consumed (unseeded) by the `"c4"`
branch; `seed` is only ever passed to `utils.set_random_seed` (line 169),
which writes global state that nothing later in the function reads, so it does
not influence the result. -/
def get_dataloader (tokenize : String → List Int) (seqlen : Nat)
    (dataset : DatasetSource) (nsamples : Nat) (seed : Nat) (rng : List Nat) :
    Except String (List (List Int)) :=
  match dataset with
  | DatasetSource.c4 docs =>
    match c4Samples docs seqlen nsamples rng with
    | some s => Except.ok s
    | none => Except.error "Could not find enough valid documents in the C4 sample."
  | DatasetSource.named toks => streamSamples toks nsamples seqlen
  | DatasetSource.strings texts =>
    if texts.isEmpty then Except.error "Provided dataset is empty."
    else streamSamples (tokenize (joinTexts texts)) nsamples seqlen
  | DatasetSource.pretokenized items =>
    if items.isEmpty then Except.error "Provided dataset is empty."
    else streamSamples items.flatten nsamples seqlen

/-- The unified token stream (`all_tokens` after Step 1) a source produces, or
`none` when that source either has no stream (`"c4"` returns early at line
122) or raises before building one (empty iterable, line 146). -/
def streamOf (tokenize : String → List Int) : DatasetSource → Option (List Int)
  | DatasetSource.c4 _ => none
  | DatasetSource.named toks => some toks
  | DatasetSource.strings texts =>
    if texts.isEmpty then none else some (tokenize (joinTexts texts))
  | DatasetSource.pretokenized items =>
    if items.isEmpty then none else some items.flatten

/-! ## Orchestrator (`apply_gptq_layerwise`, gptqutils.py lines 208-348) -/

/-- A 2-D activation tensor (sequence positions × features). -/
abbrev Mat := List (List Int)

/-- A calibration activation as it flows between blocks: the embedding layer
produces 3-D batches of leading size 1; `block(current_input)[0]` (line 342)
stores 2-D tensors which are re-expanded with `ops.expand_dims` (lines
299-300, 340-341) on the next use. -/
inductive Inp where
  | d2 (x : Mat)
  | d3 (x : List Mat)
deriving DecidableEq

/-- `if len(current_input.shape) == 2: current_input = ops.expand_dims(current_input, axis=0)`
(lines 299-300 and 340-341). -/
def adaptInp : Inp → List Mat
  | Inp.d2 x => [x]
  | Inp.d3 x => x

/-- A transformer block as the orchestrator sees it: `params` are the
non-quantized tensors that shape its forward computation, `weights` the
kernels of its quantizable `Dense`/`EinsumDense` sub-layers (the values of
`find_layers_in_block`, lines 197-205), in discovery order. -/
structure Block where
  params : List Int
  weights : List Int
deriving DecidableEq

/-- One propagation step (lines 339-343): expand the stored input to 3-D if
needed, run the block forward (`F`, an external computation over the block's
current parameters and weights), and keep `output[0]`.  Python's `[0]` on an
empty leading axis would raise; `headI` returns `[]` there. -/
def forwardStep (F : Block → List Mat → List Mat) (b : Block) (inp : Inp) : Inp :=
  Inp.d2 ((F b (adaptInp inp)).headI)

/-- The per-block capture/Hessian/quantization phase (lines 266-333): when the
block has no quantizable sub-layers it is skipped unchanged (line 267-268);
otherwise `Q` stands for the composite of activation capture over the first
`nsamples` inputs, `add_batch`, and the in-place `fasterquant` weight updates
(`GPTQ`/`Quantizer` live in `gptq.py`/`quant.py`, outside the sources, so the
orchestrator is generic in `Q`). -/
def processBlock (Q : Block → List Inp → Block) (nsamples : Nat) (b : Block)
    (inputs : List Inp) : Block :=
  if b.weights.isEmpty then b else Q b (inputs.take nsamples)

/-- The block loop of `apply_gptq_layerwise` (lines 263-346): quantize the
current block in place, then — except for the last block — recompute the
calibration inputs of the next block by running the *now-quantized* block
forward over the first `nsamples` current inputs (lines 335-344).  Returns the
trace of per-block input sequences and the final (quantized) blocks.
`keras.backend.clear_session()` (line 346) only resets global bookkeeping
state and touches no weight, so it has no counterpart here. -/
def gptqLoop (F : Block → List Mat → List Mat) (Q : Block → List Inp → Block)
    (nsamples : Nat) : List Block → List Inp → List (List Inp) × List Block
  | [], _ => ([], [])
  | b :: rest, inputs =>
    match rest with
    | [] => ([inputs], [processBlock Q nsamples b inputs])
    | r :: rs =>
      let qb := processBlock Q nsamples b inputs
      let nextInputs := (inputs.take nsamples).map (forwardStep F qb)
      let res := gptqLoop F Q nsamples (r :: rs) nextInputs
      (inputs :: res.1, qb :: res.2)

/-! ### Layer discovery (lines 229-255) -/

/-- A top-level layer of a "custom structure" model (line 241-250): an
`Embedding` instance, a container with non-empty `_layers` (treated as a
block), or anything else. -/
inductive KLayer where
  | emb (id : Nat)
  | container (id : Nat) (b : Block)
  | plain (id : Nat)
deriving DecidableEq

/-- `model.backbone` of a KerasNLP model (lines 229-239): the optional
`token_embedding` and `embedding` attributes and `transformer_layers`. -/
structure Backbone where
  token_embedding : Option Nat
  embedding : Option Nat
  transformer_layers : List Block
deriving DecidableEq

/-- A model as `apply_gptq_layerwise` inspects it: either it `hasattr
"backbone"` (KerasNLP path) or its top-level `model.layers` are scanned
(custom path). -/
inductive ModelStruct where
  | kerasnlp (b : Backbone)
  | custom (layers : List KLayer)
deriving DecidableEq

/-- The custom-path scan (lines 243-250): the first `Embedding` becomes the
embedding layer; every layer with non-empty `_layers` becomes a block (an
`Embedding` has no sub-layers, so later embeddings match neither branch). -/
def discoverCustom : List KLayer → Option Nat → List Block → Option Nat × List Block
  | [], e, bs => (e, bs)
  | KLayer.emb id :: rest, e, bs =>
    match e with
    | none => discoverCustom rest (some id) bs
    | some e0 => discoverCustom rest (some e0) bs
  | KLayer.container _ b :: rest, e, bs => discoverCustom rest e (bs ++ [b])
  | KLayer.plain _ :: rest, e, bs => discoverCustom rest e bs

/-- The embedding layer discovery finds (lines 234-239 resp. 243-246). -/
def modelEmbedding : ModelStruct → Option Nat
  | ModelStruct.kerasnlp b =>
    match b.token_embedding with
    | some t => some t
    | none => b.embedding
  | ModelStruct.custom ls => (discoverCustom ls none []).1

/-- The block sequence discovery finds (line 232 resp. 247-250). -/
def modelBlocks : ModelStruct → List Block
  | ModelStruct.kerasnlp b => b.transformer_layers
  | ModelStruct.custom ls => (discoverCustom ls none []).2

/-- Write quantized blocks back into the model, in discovery order (in Python
the block objects are mutated in place). -/
def replaceBlocks : List KLayer → List Block → List KLayer
  | [], _ => []
  | KLayer.container id _ :: rest, q :: qs =>
    KLayer.container id q :: replaceBlocks rest qs
  | KLayer.container id b :: rest, [] =>
    KLayer.container id b :: replaceBlocks rest []
  | l :: rest, qs => l :: replaceBlocks rest qs

/-- State write-back for the whole model. -/
def setBlocks : ModelStruct → List Block → ModelStruct
  | ModelStruct.kerasnlp b, qs =>
    ModelStruct.kerasnlp ⟨b.token_embedding, b.embedding, qs⟩
  | ModelStruct.custom ls, qs => ModelStruct.custom (replaceBlocks ls qs)

/-- Error message of lines 239 and 253. -/
def embErrMsg : String :=
  "Could not automatically find an embedding layer in the model."

/-- Error message of line 255. -/
def blocksErrMsg : String :=
  "Could not automatically find any transformer-like blocks to quantize."

/-- `apply_gptq_layerwise(model, dataloader, nsamples, ...)` (lines 208-348).
The result pairs the raised error (if any) with the model state at
termination: a discovery failure raises before any forward pass or weight
update, so the model comes back untouched.  `E` embeds the external embedding
layer (line 258-261, producing 3-D activations); `F` and `Q` are as in
`gptqLoop`. -/
def apply_gptq_run (F : Block → List Mat → List Mat)
    (Q : Block → List Inp → Block) (E : List Int → List Mat)
    (m : ModelStruct) (dataloader : List (List Int)) (nsamples : Nat) :
    Option String × ModelStruct :=
  match modelEmbedding m with
  | none => (some embErrMsg, m)
  | some _ =>
    match modelBlocks m with
    | [] => (some blocksErrMsg, m)
    | b :: bs =>
      let inputs := dataloader.map (fun batch => Inp.d3 (E batch))
      let res := gptqLoop F Q nsamples (b :: bs) inputs
      (none, setBlocks m res.2)

/-! ### Hook capture discipline (lines 279-306) -/

/-- The `call` attribute of a sub-layer: either the original method of layer
`id`, or the capture hook produced by `create_hook(name, original_call_func)`
wrapping a previous `call` value (line 294). -/
inductive CallFn where
  | orig (id : Nat)
  | hooked (id : Nat) (inner : CallFn)
deriving DecidableEq

/-- Attribute assignment `layer.call = f` on the table of `call` attributes,
indexed by layer identity. -/
def updateCalls (c : Nat → CallFn) (id : Nat) (f : CallFn) : Nat → CallFn :=
  fun x => if x = id then f else c x

/-- The installation loop (lines 291-294): for each sub-layer in order, save
`original_call = layer.call` into `original_calls` and replace `layer.call`
with the hook.  Returns the patched table and the saved list in insertion
order. -/
def installHooks : List Nat → (Nat → CallFn) → List (Nat × CallFn) →
    (Nat → CallFn) × List (Nat × CallFn)
  | [], c, os => (c, os)
  | id :: rest, c, os =>
    installHooks rest (updateCalls c id (CallFn.hooked id (c id))) (os ++ [(id, c id)])

/-- Specification form of the `original_calls` list `installHooks` builds. -/
def savedCalls : List Nat → (Nat → CallFn) → List (Nat × CallFn)
  | [], _ => []
  | id :: rest, c =>
    (id, c id) :: savedCalls rest (updateCalls c id (CallFn.hooked id (c id)))

/-- Specification form of the patched `call` table `installHooks` leaves. -/
def patchedCalls : List Nat → (Nat → CallFn) → Nat → CallFn
  | [], c => c
  | id :: rest, c => patchedCalls rest (updateCalls c id (CallFn.hooked id (c id)))

/-- The `finally` loop (lines 303-306): `layer.call = original_calls[name]`
for every saved entry, in insertion order. -/
def restoreCalls : List (Nat × CallFn) → (Nat → CallFn) → (Nat → CallFn)
  | [], c => c
  | (id, f) :: rest, c => restoreCalls rest (updateCalls c id f)

/-- The capture phase of one block (lines 290-306): install the hooks, run the
calibration forward passes (their outcome — normal completion or a raised
exception — is `forwardOutcome`; hooks only append to `captured_inputs` and
never change any `call` attribute), then unconditionally restore every saved
`call` in the `finally` block.  The outcome is propagated alongside the final
attribute table. -/
def capturePhase (layers : List Nat) (calls0 : Nat → CallFn)
    (forwardOutcome : Except Unit Unit) : Except Unit Unit × (Nat → CallFn) :=
  (forwardOutcome,
    restoreCalls (installHooks layers calls0 []).2 (installHooks layers calls0 []).1)

/-! ## `quantize_model` (gptqutils.py lines 350-388) -/

/-- The fields of `GPTQConfig` that `quantize_model` reads. -/
structure GPTQConfig where
  dataset : DatasetSource
  nsamples : Nat
  seqlen : Nat
  wbits : Nat
  groupsize : Nat
  symmetric : Bool
  act_order : Bool

/-- `quantize_model(model, config)` (lines 350-388): request
`config.nsamples + 50` samples from `get_dataloader` (with the default
`seed=0`), split off the first `config.nsamples` as the calibration slice, and
run `apply_gptq_layerwise` on that slice with `len(calibration_dataloader)` as
the sample count.  The trailing 50-sample test slice is materialised but the
perplexity evaluation that would consume it is commented out (lines 382-387),
so it is never used. -/
def quantize_model (F : Block → List Mat → List Mat)
    (Q : Block → List Inp → Block) (E : List Int → List Mat)
    (tokenize : String → List Int) (m : ModelStruct) (config : GPTQConfig)
    (rng : List Nat) : Except String (Option String × ModelStruct) :=
  match get_dataloader tokenize config.seqlen config.dataset
      (config.nsamples + 50) 0 rng with
  | Except.error e => Except.error e
  | Except.ok full =>
    let calibration := full.take config.nsamples
    Except.ok (apply_gptq_run F Q E m calibration calibration.length)

/-! ## GPTQ Hessian accumulator (`gptq.py`, not among the sources) -/

/-- `X^T X` of a batch given as a list of feature rows. -/
def xtx (n : Nat) (X : List (Fin n → ℚ)) (i j : Fin n) : ℚ :=
  (X.map (fun r => r i * r j)).sum

/-- The per-layer accumulator state: the running Hessian over the layer's
`n` input features and the sample counter. -/
structure GPTQAcc (n : Nat) where
  H : Fin n → Fin n → ℚ
  nsamples : Nat

/-- Fresh accumulator: zero Hessian, zero samples. -/
def initAcc (n : Nat) : GPTQAcc n :=
  ⟨fun _ _ => 0, 0⟩

/-- Modelled from the spec: `GPTQ.add_batch` lives in `gptq.py`, which is not
among the source files (only its caller, gptqutils.py line 319, is).  Following
the spec's words — "reshapes input to (N, features), updates the running
Hessian as `H += 2 * X^T X` (scaled by total sample count across all calls so
far, to keep the accumulator numerically stable regardless of batch chunking),
increments the sample counter" — the previous Hessian is renormalised by
`old/total` and `2/total * X^T X` is added, where `total` is the sample count
across all calls so far.  The batch is already in `(N, features)` shape (the
reshape is on the caller's side, line 317), with `features` enforced by the
type. -/
def add_batch {n : Nat} (s : GPTQAcc n) (X : List (Fin n → ℚ)) : GPTQAcc n :=
  { H := fun i j =>
      ((s.nsamples : ℚ) / ((s.nsamples : ℚ) + (X.length : ℚ))) * s.H i j
        + (2 / ((s.nsamples : ℚ) + (X.length : ℚ))) * xtx n X i j,
    nsamples := s.nsamples + X.length }

/-! ## `load_variable_with_sharded_support` (variable_loading.py lines 11-48) -/

/-- A variable as the loader inspects it: `layout = none` models a missing
`_layout` attribute, `some none` an attribute set to `None`, `some (some l)`
an actual layout.  The `logging.info` calls are pure I/O and have no
counterpart. -/
structure KVariable where
  layout : Option (Option Nat)
deriving DecidableEq

/-- The assignment calls the loader can make on the variable. -/
inductive AssignCall (W : Type) where
  | direct (w : W)
  | normal (w : W)
deriving DecidableEq

/-- `load_variable_with_sharded_support(variable, weight_data)` (lines 11-48):
`variable._direct_assign(weight_data)` when `hasattr(variable, "_layout")`
and `variable._layout is not None`, else `variable.assign(weight_data)`;
Python returns `None` (modelled as `Unit`).  The result records the sequence
of assignment calls made. -/
def load_variable_with_sharded_support {W : Type} (v : KVariable) (weight_data : W) :
    List (AssignCall W) × Unit :=
  match v.layout with
  | some (some _) => ([AssignCall.direct weight_data], ())
  | _ => ([AssignCall.normal weight_data], ())

deriving instance DecidableEq for Except

/-! ## Helper lemmas: calibration pipeline -/

lemma repeatToks_length (k : Nat) (t : List Int) :
    (repeatToks k t).length = k * t.length := by
  induction k with
  | zero => simp [repeatToks]
  | succ k ih => simp [repeatToks, ih, Nat.succ_mul]; omega

lemma tiledStream_length (toks : List Int) (required : Nat) (h : toks ≠ []) :
    required ≤ (tiledStream toks required).length := by
  have hL : 1 ≤ toks.length := List.length_pos.mpr h
  unfold tiledStream
  split
  · rw [repeatToks_length]
    have hd := Nat.div_add_mod (required + toks.length - 1) toks.length
    have hm : (required + toks.length - 1) % toks.length < toks.length :=
      Nat.mod_lt _ hL
    rw [Nat.mul_comm]
    omega
  · omega

lemma chunkSamples_length (allToks : List Int) (nsamples seqlen : Nat) :
    (chunkSamples allToks nsamples seqlen).length = nsamples := by
  simp [chunkSamples]

lemma chunkSamples_getElem? (allToks : List Int) (nsamples seqlen i : Nat)
    (hi : i < nsamples) :
    (chunkSamples allToks nsamples seqlen)[i]? =
      some ((allToks.drop (i * seqlen)).take seqlen) := by
  simp [chunkSamples, List.getElem?_map, List.getElem?_range hi]

lemma chunkSamples_mem_length (allToks : List Int) (nsamples seqlen : Nat)
    (hall : nsamples * seqlen ≤ allToks.length) :
    ∀ x ∈ chunkSamples allToks nsamples seqlen, x.length = seqlen := by
  intro x hx
  obtain ⟨i, hi, rfl⟩ := List.mem_map.mp hx
  have hi' : i < nsamples := List.mem_range.mp hi
  have h2 : i * seqlen + seqlen ≤ nsamples * seqlen := by
    rw [← Nat.succ_mul]; exact Nat.mul_le_mul_right seqlen hi'
  rw [List.length_take, List.length_drop]
  omega

lemma streamSamples_ok (toks : List Int) (nsamples seqlen : Nat) (hne : toks ≠ []) :
    streamSamples toks nsamples seqlen =
      Except.ok (chunkSamples (tiledStream toks (nsamples * seqlen)) nsamples seqlen) := by
  have : toks.length ≠ 0 := by simpa using List.length_pos.mpr hne |>.ne'
  simp [streamSamples, this]

lemma get_dataloader_stream (tokenize : String → List Int) (seqlen : Nat)
    (src : DatasetSource) (nsamples seed : Nat) (rng : List Nat) (toks : List Int)
    (hs : streamOf tokenize src = some toks) :
    get_dataloader tokenize seqlen src nsamples seed rng =
      streamSamples toks nsamples seqlen := by
  cases src with
  | c4 docs => simp [streamOf] at hs
  | named t =>
    simp only [streamOf, Option.some.injEq] at hs
    simp [get_dataloader, hs]
  | strings texts =>
    by_cases he : texts.isEmpty <;> simp [streamOf, he] at hs <;>
      simp [get_dataloader, he, hs]
  | pretokenized items =>
    by_cases he : items.isEmpty <;> simp [streamOf, he] at hs <;>
      simp [get_dataloader, he, hs]

/-! ## Claim theorems: calibration pipeline -/

/-- C3.  For every stream-producing dataset source (named alias, iterable of
strings, or pre-tokenized iterable) whose resulting token stream is non-empty,
`get_dataloader` returns exactly `nsamples` samples of exactly `seqlen` tokens
each; in particular, when the stream is shorter than `nsamples * seqlen`, it
is tiled up to the required length and the call succeeds rather than
raising. -/
theorem claim3_output_contract (tokenize : String → List Int) (seqlen : Nat)
    (src : DatasetSource) (nsamples seed : Nat) (rng : List Nat) (toks : List Int)
    (hs : streamOf tokenize src = some toks) (hne : toks ≠ []) :
    ∃ out, get_dataloader tokenize seqlen src nsamples seed rng = Except.ok out ∧
      out.length = nsamples ∧ ∀ x ∈ out, x.length = seqlen := by
  refine ⟨_, by rw [get_dataloader_stream tokenize seqlen src nsamples seed rng toks hs,
    streamSamples_ok toks nsamples seqlen hne], chunkSamples_length _ _ _, ?_⟩
  exact chunkSamples_mem_length _ _ _ (tiledStream_length toks _ hne)

/-- Witness for C3 on a concrete input that exercises the tiling branch
(stream of 3 tokens, 2 samples of 2 tokens required). -/
theorem claim3_output_contract_witness :
    streamOf (fun _ => []) (DatasetSource.named [1, 2, 3]) = some [1, 2, 3] ∧
    ([1, 2, 3] : List Int) ≠ [] ∧
    ∃ out, get_dataloader (fun _ => []) 2 (DatasetSource.named [1, 2, 3]) 2 0 [] =
        Except.ok out ∧ out.length = 2 ∧ ∀ x ∈ out, x.length = 2 :=
  ⟨rfl, by decide,
    claim3_output_contract (fun _ => []) 2 (DatasetSource.named [1, 2, 3]) 2 0 []
      [1, 2, 3] rfl (by decide)⟩

/-- C4, counterexample.  The claim quantifies over *every* dataset source, but
the `"c4"` alias branch (gptqutils.py lines 95-122) slices random windows out
of randomly chosen documents via the ambient `random` module instead of
slicing the stream contiguously: with the single document
`[10, 20, 30, 40]`, `seqlen = 2`, `nsamples = 2` and ambient draws
`[0, 1, 0, 0]`, the call returns `[[20, 30], [10, 20]]`, whose sample 0 is
not tokens `[0*seqlen, 1*seqlen)` of the (un-tiled) document stream. -/
theorem claim4_counterexample :
    get_dataloader (fun _ => []) 2 (DatasetSource.c4 [[10, 20, 30, 40]]) 2 0
        [0, 1, 0, 0] = Except.ok [[20, 30], [10, 20]] ∧
    ¬ ([20, 30] : List Int) =
        ((tiledStream [10, 20, 30, 40] (2 * 2)).drop (0 * 2)).take 2 := by
  decide

/-- C4, amended.  For every stream-producing dataset source (named non-`"c4"`
alias, iterable of strings, or pre-tokenized iterable) with a non-empty token
stream, samples are sliced contiguously from the (possibly tiled) stream:
output sample `i` consists exactly of tokens `[i*seqlen, (i+1)*seqlen)` of
that stream.  The `"c4"` alias instead samples random windows of random
documents. -/
theorem claim4_contiguous_slicing (tokenize : String → List Int) (seqlen : Nat)
    (src : DatasetSource) (nsamples seed : Nat) (rng : List Nat) (toks : List Int)
    (i : Nat) (hs : streamOf tokenize src = some toks) (hne : toks ≠ [])
    (hi : i < nsamples) :
    ∃ out, get_dataloader tokenize seqlen src nsamples seed rng = Except.ok out ∧
      out[i]? = some (((tiledStream toks (nsamples * seqlen)).drop (i * seqlen)).take
        seqlen) := by
  refine ⟨_, by rw [get_dataloader_stream tokenize seqlen src nsamples seed rng toks hs,
    streamSamples_ok toks nsamples seqlen hne], ?_⟩
  exact chunkSamples_getElem? _ _ _ _ hi

/-- Witness for the amended C4: sample 2 out of 3 samples of length 1 over the
tiled stream of `[5, 6]`. -/
theorem claim4_contiguous_slicing_witness :
    streamOf (fun _ => []) (DatasetSource.named [5, 6]) = some [5, 6] ∧
    ([5, 6] : List Int) ≠ [] ∧ 2 < 3 ∧
    ∃ out, get_dataloader (fun _ => []) 1 (DatasetSource.named [5, 6]) 3 0 [] =
        Except.ok out ∧
      out[2]? = some (((tiledStream [5, 6] (3 * 1)).drop (2 * 1)).take 1) :=
  ⟨rfl, by decide, by decide,
    claim4_contiguous_slicing (fun _ => []) 1 (DatasetSource.named [5, 6]) 3 0 []
      [5, 6] 2 rfl (by decide) (by decide)⟩

/-- C5, counterexample.  The claim includes the `"c4"` alias, but that branch
draws from Python's ambient global `random` state without ever seeding it
(`utils.set_random_seed(seed)` at line 169 runs only on the stream path, after
the `"c4"` branch has already returned), so two calls with identical Python
arguments (tokenizer, seqlen, dataset, nsamples, seed) read whatever ambient
state they find and need not agree: with the document `[10, 20, 30, 40]`,
ambient draws `[0, 0]` yield `[[10, 20]]` while draws `[0, 1]` yield
`[[20, 30]]`. -/
theorem claim5_counterexample :
    get_dataloader (fun _ => []) 2 (DatasetSource.c4 [[10, 20, 30, 40]]) 1 0 [0, 0] ≠
      get_dataloader (fun _ => []) 2 (DatasetSource.c4 [[10, 20, 30, 40]]) 1 0
        [0, 1] := by
  decide

/-- C5, amended.  For every dataset source other than the `"c4"` alias, the
result of `get_dataloader` does not depend on the ambient `random` state at
all, so two calls with identical arguments (same tokenizer, seqlen, dataset,
nsamples and seed) produce bit-identical outputs. -/
theorem claim5_stream_determinism (tokenize : String → List Int) (seqlen : Nat)
    (src : DatasetSource) (nsamples seed : Nat) (rng rng' : List Nat)
    (h : ∀ docs, src ≠ DatasetSource.c4 docs) :
    get_dataloader tokenize seqlen src nsamples seed rng =
      get_dataloader tokenize seqlen src nsamples seed rng' := by
  cases src with
  | c4 docs => exact absurd rfl (h docs)
  | named t => rfl
  | strings texts => rfl
  | pretokenized items => rfl

/-- Witness for the amended C5 on a concrete pre-tokenized source and two
distinct ambient states. -/
theorem claim5_stream_determinism_witness :
    (∀ docs, DatasetSource.pretokenized [[7, 8]] ≠ DatasetSource.c4 docs) ∧
    get_dataloader (fun _ => []) 1 (DatasetSource.pretokenized [[7, 8]]) 2 0 [3, 4] =
      get_dataloader (fun _ => []) 1 (DatasetSource.pretokenized [[7, 8]]) 2 0
        [5, 6] :=
  ⟨(fun _ h => by cases h),
    claim5_stream_determinism (fun _ => []) 1 (DatasetSource.pretokenized [[7, 8]])
      2 0 [3, 4] [5, 6] (fun _ h => by cases h)⟩

/-- C8.  An empty iterable calibration dataset (list of strings or
pre-tokenized list with no elements) makes `get_dataloader` raise
`ValueError("Provided dataset is empty.")` immediately (gptqutils.py lines
143-146): the error is independent of the tokenizer — so it is raised before
any tokenization — and of everything that would drive sample construction;
the embedding returns the error to the caller, which never retries. -/
theorem claim8_empty_dataset_error (tokenize : String → List Int) (seqlen : Nat)
    (nsamples seed : Nat) (rng : List Nat) :
    get_dataloader tokenize seqlen (DatasetSource.strings []) nsamples seed rng =
        Except.error "Provided dataset is empty." ∧
    get_dataloader tokenize seqlen (DatasetSource.pretokenized []) nsamples seed rng =
        Except.error "Provided dataset is empty." :=
  ⟨rfl, rfl⟩

/-! ## Helper lemmas: orchestrator block loop -/

lemma gptqLoop_trace_head (F : Block → List Mat → List Mat)
    (Q : Block → List Inp → Block) (n : Nat) (b : Block) (rest : List Block)
    (inputs : List Inp) :
    (gptqLoop F Q n (b :: rest) inputs).1[0]? = some inputs := by
  cases rest <;> simp [gptqLoop]

/-! ## Claim theorem: block-order propagation (C1) -/

/-- C1.  In `apply_gptq_layerwise`, for every block `k` that is not the last,
the sequence of calibration inputs fed to block `k+1` is exactly the forward
output of block `k` computed *after* block `k` has been processed (its
sub-layers quantized in place), applied to each of the `nsamples` calibration
inputs of block `k` in order (gptqutils.py lines 335-344: the propagation
forward pass at line 342 runs on the same `block` object whose weights
`fasterquant` overwrote at lines 325-331). -/
theorem claim1_quantized_propagation (F : Block → List Mat → List Mat)
    (Q : Block → List Inp → Block) (n : Nat) (blocks : List Block)
    (inputs : List Inp) (k : Nat) (bk : Block) (ik : List Inp)
    (hk : k + 1 < blocks.length) (hb : blocks[k]? = some bk)
    (ht : (gptqLoop F Q n blocks inputs).1[k]? = some ik) :
    (gptqLoop F Q n blocks inputs).1[k + 1]? =
      some ((ik.take n).map (forwardStep F (processBlock Q n bk ik))) := by
  induction k generalizing blocks inputs with
  | zero =>
    obtain ⟨b, rest, rfl⟩ : ∃ b rest, blocks = b :: rest := by
      cases blocks with
      | nil => simp at hk
      | cons b rest => exact ⟨b, rest, rfl⟩
    obtain ⟨r, rs, rfl⟩ : ∃ r rs, rest = r :: rs := by
      cases rest with
      | nil => simp at hk
      | cons r rs => exact ⟨r, rs, rfl⟩
    simp only [List.getElem?_cons_zero, Option.some.injEq] at hb
    rw [gptqLoop_trace_head] at ht
    simp only [Option.some.injEq] at ht
    subst hb; subst ht
    simp only [gptqLoop, List.getElem?_cons_succ]
    exact gptqLoop_trace_head F Q n r rs _
  | succ k ih =>
    obtain ⟨b, rest, rfl⟩ : ∃ b rest, blocks = b :: rest := by
      cases blocks with
      | nil => simp at hk
      | cons b rest => exact ⟨b, rest, rfl⟩
    obtain ⟨r, rs, rfl⟩ : ∃ r rs, rest = r :: rs := by
      cases rest with
      | nil => simp at hk
      | cons r rs => exact ⟨r, rs, rfl⟩
    have hk' : k + 1 < (r :: rs).length := by
      simpa using Nat.lt_of_succ_lt_succ hk
    simp only [List.getElem?_cons_succ] at hb
    simp only [gptqLoop, List.getElem?_cons_succ] at ht ⊢
    exact ih _ _ hk' hb ht

/-- Witness for C1 on a two-block model with one calibration sample: the
identity forward and a doubling quantizer. -/
theorem claim1_quantized_propagation_witness :
    (0 + 1 < ([⟨[], [1]⟩, ⟨[], [2]⟩] : List Block).length) ∧
    ([(⟨[], [1]⟩ : Block), ⟨[], [2]⟩][0]? = some ⟨[], [1]⟩) ∧
    ((gptqLoop (fun _ x => x) (fun b _ => ⟨b.params, b.weights.map (fun w => w * 2)⟩)
        1 [⟨[], [1]⟩, ⟨[], [2]⟩] [Inp.d2 [[5]]]).1[0]? = some [Inp.d2 [[5]]]) ∧
    (gptqLoop (fun _ x => x) (fun b _ => ⟨b.params, b.weights.map (fun w => w * 2)⟩)
        1 [⟨[], [1]⟩, ⟨[], [2]⟩] [Inp.d2 [[5]]]).1[0 + 1]? =
      some (([Inp.d2 [[5]]].take 1).map
        (forwardStep (fun _ x => x)
          (processBlock (fun b _ => ⟨b.params, b.weights.map (fun w => w * 2)⟩)
            1 ⟨[], [1]⟩ [Inp.d2 [[5]]]))) :=
  ⟨by decide, by decide, by decide,
    claim1_quantized_propagation (fun _ x => x)
      (fun b _ => ⟨b.params, b.weights.map (fun w => w * 2)⟩)
      1 [⟨[], [1]⟩, ⟨[], [2]⟩] [Inp.d2 [[5]]] 0 ⟨[], [1]⟩ [Inp.d2 [[5]]]
      (by decide) (by decide) (by decide)⟩

/-! ## Helper lemmas: hook capture/restore discipline -/

lemma installHooks_eq (layers : List Nat) :
    ∀ (c : Nat → CallFn) (os : List (Nat × CallFn)),
      installHooks layers c os = (patchedCalls layers c, os ++ savedCalls layers c) := by
  induction layers with
  | nil => intro c os; simp [installHooks, patchedCalls, savedCalls]
  | cons id rest ih =>
    intro c os
    rw [installHooks, ih, patchedCalls, savedCalls]
    simp

lemma savedCalls_map_fst (layers : List Nat) :
    ∀ c : Nat → CallFn, (savedCalls layers c).map Prod.fst = layers := by
  induction layers with
  | nil => intro c; rfl
  | cons id rest ih => intro c; simp [savedCalls, ih]

lemma updateCalls_comm (g : Nat → CallFn) (id j : Nat) (v f : CallFn)
    (h : id ≠ j) :
    updateCalls (updateCalls g id v) j f = updateCalls (updateCalls g j f) id v := by
  funext x
  simp only [updateCalls]
  by_cases hj : x = j <;> by_cases hi : x = id <;> simp_all

lemma restoreCalls_update_not_mem (l : List (Nat × CallFn)) :
    ∀ (g : Nat → CallFn) (id : Nat) (v : CallFn), id ∉ l.map Prod.fst →
      restoreCalls l (updateCalls g id v) = updateCalls (restoreCalls l g) id v := by
  induction l with
  | nil => intro g id v _; rfl
  | cons p rest ih =>
    intro g id v h
    obtain ⟨j, f⟩ := p
    simp only [List.map_cons, List.mem_cons] at h
    push_neg at h
    rw [restoreCalls, updateCalls_comm g id j v f h.1, ih _ _ _ h.2, restoreCalls]

lemma restoreCalls_savedCalls (layers : List Nat) (h : layers.Nodup) :
    ∀ c : Nat → CallFn,
      restoreCalls (savedCalls layers c) (patchedCalls layers c) = c := by
  induction layers with
  | nil => intro c; rfl
  | cons id rest ih =>
    intro c
    obtain ⟨hnm, hnd⟩ := List.nodup_cons.mp h
    rw [savedCalls, patchedCalls, restoreCalls,
      restoreCalls_update_not_mem _ _ _ _ (by rw [savedCalls_map_fst]; exact hnm),
      ih hnd]
    funext x
    simp only [updateCalls]
    by_cases hx : x = id <;> simp_all

/-! ## Claim theorem: unconditional hook restoration (C6) -/

/-- C6.  For every block's capture phase with pairwise-distinct target
sub-layers, the `call` attribute of every layer after the phase equals the
original one it had before capture began, whether the calibration forward
passes completed normally or raised (the `finally` block of gptqutils.py
lines 303-306 restores every entry of `original_calls` unconditionally, and
the outcome of the forward passes is propagated unchanged). -/
theorem claim6_hook_restoration (layers : List Nat) (calls0 : Nat → CallFn)
    (outcome : Except Unit Unit) (h : layers.Nodup) :
    (capturePhase layers calls0 outcome).1 = outcome ∧
    ∀ id, (capturePhase layers calls0 outcome).2 id = calls0 id := by
  refine ⟨rfl, fun id => ?_⟩
  show (restoreCalls (installHooks layers calls0 []).2 (installHooks layers calls0 []).1) id
    = calls0 id
  rw [installHooks_eq, List.nil_append, restoreCalls_savedCalls layers h calls0]

/-- Witness for C6: two distinct hooked layers, forward passes raising. -/
theorem claim6_hook_restoration_witness :
    ([0, 1] : List Nat).Nodup ∧
    (capturePhase [0, 1] (fun i => CallFn.orig i) (Except.error ())).1 =
      Except.error () ∧
    (capturePhase [0, 1] (fun i => CallFn.orig i) (Except.error ())).2 0 =
      CallFn.orig 0 :=
  ⟨by decide,
    (claim6_hook_restoration [0, 1] (fun i => CallFn.orig i) (Except.error ())
      (by decide)).1,
    (claim6_hook_restoration [0, 1] (fun i => CallFn.orig i) (Except.error ())
      (by decide)).2 0⟩

/-! ## Claim theorem: discovery failures abort before mutation (C7) -/

/-- C7.  Whenever layer discovery finds no embedding layer, or finds no
quantizable blocks, `apply_gptq_layerwise` raises a descriptive `ValueError`
(gptqutils.py lines 239, 252-255) before any forward pass or weight update:
the model state it leaves behind is exactly the input state. -/
theorem claim7_discovery_failure (F : Block → List Mat → List Mat)
    (Q : Block → List Inp → Block) (E : List Int → List Mat) (m : ModelStruct)
    (dl : List (List Int)) (n : Nat)
    (h : modelEmbedding m = none ∨ modelBlocks m = []) :
    ∃ msg, apply_gptq_run F Q E m dl n = (some msg, m) := by
  rcases h with h | h
  · exact ⟨embErrMsg, by simp [apply_gptq_run, h]⟩
  · cases he : modelEmbedding m with
    | none => exact ⟨embErrMsg, by simp [apply_gptq_run, he]⟩
    | some e => exact ⟨blocksErrMsg, by simp [apply_gptq_run, he, h]⟩

/-- Witness for C7: a model with no layers at all (no embedding found). -/
theorem claim7_discovery_failure_witness :
    (modelEmbedding (ModelStruct.custom []) = none ∨
      modelBlocks (ModelStruct.custom []) = []) ∧
    ∃ msg, apply_gptq_run (fun _ x => x) (fun b _ => b) (fun _ => [])
        (ModelStruct.custom []) [] 0 = (some msg, ModelStruct.custom []) :=
  ⟨Or.inl (by decide),
    claim7_discovery_failure (fun _ x => x) (fun b _ => b) (fun _ => [])
      (ModelStruct.custom []) [] 0 (Or.inl (by decide))⟩

/-! ## Claim theorem: `quantize_model` requests `nsamples + 50` (C9) -/

/-- C9.  `quantize_model` invokes the calibration pipeline requesting
`config.nsamples + 50` samples (gptqutils.py lines 359-362), uses exactly the
first `config.nsamples` of the returned array as the calibration slice that
drives `apply_gptq_layerwise` (with `len(calibration_dataloader)` as the
sample count), and the remaining 50 samples are materialised but unused (the
perplexity evaluation that would read them is commented out). -/
theorem claim9_calibration_split (F : Block → List Mat → List Mat)
    (Q : Block → List Inp → Block) (E : List Int → List Mat)
    (tokenize : String → List Int) (m : ModelStruct) (config : GPTQConfig)
    (rng : List Nat) (toks : List Int)
    (hs : streamOf tokenize config.dataset = some toks) (hne : toks ≠ []) :
    ∃ full,
      get_dataloader tokenize config.seqlen config.dataset (config.nsamples + 50) 0
          rng = Except.ok full ∧
      full.length = config.nsamples + 50 ∧
      (full.take config.nsamples).length = config.nsamples ∧
      (full.drop config.nsamples).length = 50 ∧
      quantize_model F Q E tokenize m config rng =
        Except.ok (apply_gptq_run F Q E m (full.take config.nsamples)
          config.nsamples) := by
  have hok : get_dataloader tokenize config.seqlen config.dataset
      (config.nsamples + 50) 0 rng =
      Except.ok (chunkSamples (tiledStream toks ((config.nsamples + 50) * config.seqlen))
        (config.nsamples + 50) config.seqlen) := by
    rw [get_dataloader_stream _ _ _ _ _ _ _ hs, streamSamples_ok _ _ _ hne]
  have htake : ((chunkSamples (tiledStream toks ((config.nsamples + 50) * config.seqlen))
      (config.nsamples + 50) config.seqlen).take config.nsamples).length =
      config.nsamples := by
    rw [List.length_take, chunkSamples_length]; omega
  refine ⟨_, hok, chunkSamples_length _ _ _, htake, ?_, ?_⟩
  · rw [List.length_drop, chunkSamples_length]; omega
  · simp only [quantize_model, hok]
    rw [htake]

/-- Witness for C9: one calibration sample over a three-token stream. -/
theorem claim9_calibration_split_witness :
    streamOf (fun _ => []) (DatasetSource.named [1, 2, 3]) = some [1, 2, 3] ∧
    ([1, 2, 3] : List Int) ≠ [] ∧
    ∃ full,
      get_dataloader (fun _ => []) 1 (DatasetSource.named [1, 2, 3]) (1 + 50) 0 [] =
          Except.ok full ∧
      full.length = 1 + 50 ∧
      (full.take 1).length = 1 ∧
      (full.drop 1).length = 50 ∧
      quantize_model (fun _ x => x) (fun b _ => b) (fun _ => []) (fun _ => [])
          (ModelStruct.custom [])
          ⟨DatasetSource.named [1, 2, 3], 1, 1, 4, 16, true, false⟩ [] =
        Except.ok (apply_gptq_run (fun _ x => x) (fun b _ => b) (fun _ => [])
          (ModelStruct.custom []) (full.take 1) 1) :=
  ⟨rfl, by decide,
    claim9_calibration_split (fun _ x => x) (fun b _ => b) (fun _ => [])
      (fun _ => []) (ModelStruct.custom [])
      ⟨DatasetSource.named [1, 2, 3], 1, 1, 4, 16, true, false⟩ [] [1, 2, 3]
      rfl (by decide)⟩

/-! ## Helper lemmas: Hessian accumulator symmetry -/

lemma xtx_symm (n : Nat) (X : List (Fin n → ℚ)) (i j : Fin n) :
    xtx n X i j = xtx n X j i := by
  unfold xtx
  induction X with
  | nil => rfl
  | cons r rest ih =>
    rw [List.map_cons, List.map_cons, List.sum_cons, List.sum_cons,
      mul_comm (r i) (r j), ih]

lemma add_batch_symm {n : Nat} (s : GPTQAcc n) (X : List (Fin n → ℚ))
    (hs : ∀ i j, s.H i j = s.H j i) (i j : Fin n) :
    (add_batch s X).H i j = (add_batch s X).H j i := by
  simp only [add_batch, hs i j, xtx_symm n X i j]

lemma foldl_add_batch_symm {n : Nat} (batches : List (List (Fin n → ℚ))) :
    ∀ s : GPTQAcc n, (∀ i j, s.H i j = s.H j i) →
      ∀ i j, (batches.foldl add_batch s).H i j = (batches.foldl add_batch s).H j i := by
  induction batches with
  | nil => intro s hs; exact hs
  | cons X rest ih => intro s hs; exact ih _ (add_batch_symm s X hs)

/-! ## Claim theorem: Hessian update rule and symmetry (C2) -/

/-- C2.  Every `add_batch` call on a GPTQ accumulator with a valid
`(N, features)` batch updates the running Hessian by adding `2 * X^T X`
scaled by the total sample count across all calls so far (the previous
Hessian being renormalised accordingly) and increments the sample counter by
`N`; and after every sequence of such calls starting from a fresh accumulator
the Hessian is symmetric. -/
theorem claim2_hessian_update_and_symmetry (n : Nat)
    (batches : List (List (Fin n → ℚ))) :
    (∀ (s : GPTQAcc n) (X : List (Fin n → ℚ)),
      (add_batch s X).nsamples = s.nsamples + X.length ∧
      ∀ i j, (add_batch s X).H i j =
        ((s.nsamples : ℚ) / ((s.nsamples : ℚ) + (X.length : ℚ))) * s.H i j
          + (2 / ((s.nsamples : ℚ) + (X.length : ℚ))) * xtx n X i j) ∧
    ∀ i j, (batches.foldl add_batch (initAcc n)).H i j =
      (batches.foldl add_batch (initAcc n)).H j i :=
  ⟨fun _ _ => ⟨rfl, fun _ _ => rfl⟩,
    foldl_add_batch_symm batches (initAcc n) (fun _ _ => rfl)⟩

/-! ## Claim theorem: sharded variable loading dispatch (C10) -/

/-- C10.  `load_variable_with_sharded_support` calls
`variable._direct_assign(weight_data)` if and only if the variable has a
`_layout` attribute whose value is not `None`, and otherwise calls
`variable.assign(weight_data)`; in both cases exactly one assignment is made
and the function returns `None`. -/
theorem claim10_sharded_dispatch {W : Type} (v : KVariable) (w : W) :
    (load_variable_with_sharded_support v w).2 = () ∧
    (load_variable_with_sharded_support v w).1.length = 1 ∧
    ((load_variable_with_sharded_support v w).1 = [AssignCall.direct w] ↔
      ∃ l, v.layout = some (some l)) ∧
    ((load_variable_with_sharded_support v w).1 = [AssignCall.normal w] ↔
      ¬ ∃ l, v.layout = some (some l)) := by
  obtain ⟨layout⟩ := v
  rcases layout with _ | opt
  · simp [load_variable_with_sharded_support]
  · rcases opt with _ | l
    · simp [load_variable_with_sharded_support]
    · simp [load_variable_with_sharded_support]

end KerasGptq
